import Mathlib

/-!
# Verification of the HMIS record-lifecycle logic

A shallow embedding of the record lifecycle / sequence-assignment /
derived-field computation logic of the HMIS repository:

* `src/patient.py` — `hospital.patient`: `create` (duplicate-contact guard,
  `ir.sequence` lookup/creation, counter reset heuristic, identifier
  assignment) and `_compute_age_display`;
* `src/PythonCodeHMIS.py` — `hmis.patient`: `_check_date_of_birth`
  constraint and `HMISAutomatedTasks.auto_follow_up_patients`;
* `src/icu_bed.py` — `hospital.icu.bed`: `unlink` guard;
* `src/OdooPythonTutorialSchool.py` —
  `SMISAutomatedTasks.auto_generate_daily_attendance`.

Machine-level conventions: Python `datetime.date` is a year/month/day
structure together with a validity predicate (constructing an invalid date
raises `ValueError`); Odoo `Datetime` values are abstract integer ticks;
Python exceptions are modelled by returning the error together with the
state that exists at raise time (Odoo rolls the transaction back on an
uncaught error, so an errored call leaves the store unchanged).
-/

/-- Python/Odoo exceptions that the embedded code can raise. -/
inductive PyErr where
  | attributeError
  | valueError
  | validationError (msg : String)
deriving DecidableEq, Repr

/-- Python truthiness of an optional string (`None` and `''` are falsy);
used for `if contact_number:` in `Patient.create`. -/
def truthy : Option String → Bool
  | none => false
  | some s => s ≠ ""

/-- A (possibly invalid) year/month/day triple. -/
structure PyDate where
  year : Nat
  month : Nat
  day : Nat
deriving DecidableEq, Repr

/-! ## Decimal rendering with zero padding

`ir.sequence` renders the counter value as `prefix + '%0{padding}d' % n`.
We embed decimal rendering with a fuel-based digit extractor so that it is
kernel-computable, and keep an inverse (`unDigits`) around for the
injectivity proofs.
-/

/-- Little-endian decimal digits of `n`, with explicit fuel. -/
def decDigitsAux : Nat → Nat → List Nat
  | 0, _ => []
  | _ + 1, 0 => []
  | fuel + 1, n + 1 => ((n + 1) % 10) :: decDigitsAux fuel ((n + 1) / 10)

/-- Little-endian decimal digits of `n` (`0` has no digits). -/
def decDigits (n : Nat) : List Nat := decDigitsAux n n

/-- Value of a little-endian decimal digit list. -/
def unDigits : List Nat → Nat
  | [] => 0
  | d :: t => d + 10 * unDigits t

/-- Big-endian digit list of `n`, left-padded with zeros to width `p`
(the rendering of `'%0{p}d' % n`). -/
def padDigits (p n : Nat) : List Nat :=
  List.replicate (p - (decDigits n).length) 0 ++ (decDigits n).reverse

/-- The formatted identifier `prefix + '%0{p}d' % n` issued by a sequence. -/
def fmtSeqId (pfx : String) (p n : Nat) : String :=
  pfx ++ String.mk ((padDigits p n).map Nat.digitChar)

/-! ## `ir.sequence` and the `hospital.patient` environment -/

/-- The `ir.sequence` record with code `hospital.patient`
(fields used by `Patient.create`). -/
structure IrSequence where
  number_next : Nat
  pfx : String
  padding : Nat
  increment : Nat
deriving DecidableEq, Repr

/-- `ir.sequence.next_by_code`: render the next identifier and advance the
counter by `number_increment`. -/
def nextByCode (s : IrSequence) : String × IrSequence :=
  (fmtSeqId s.pfx s.padding s.number_next,
   { s with number_next := s.number_next + s.increment })

/-- A stored `hospital.patient` record (the fields `Patient.create` and the
claims read). -/
structure PatientRec where
  patient_id : String
  name : String
  contact_number : Option String
  date_of_birth : Option PyDate
  registration_date : Option Nat
deriving DecidableEq, Repr

/-- A `vals` dictionary for `hospital.patient` creation; `none` models an
absent key. -/
structure PatientVals where
  patient_id : Option String
  name : String
  contact_number : Option String
  date_of_birth : Option PyDate
  registration_date : Option Nat
deriving DecidableEq, Repr

/-- The persistent store `Patient.create` touches: the `hospital.patient`
table and the `ir.sequence` record with code `hospital.patient`
(`none` when no such sequence exists yet). -/
structure Env where
  patients : List PatientRec
  seq : Option IrSequence
deriving DecidableEq, Repr

/-- The dynamic argument of `Patient.create`: the method is decorated
`@api.model_create_multi`, so callers pass a list of dicts, but the body
indexes `vals_list` with dict operations.  We keep both shapes. -/
inductive CreateArg where
  | dict (vals : PatientVals)
  | list (vals : List PatientVals)

/-- `search([('contact_number', '=', cn)], limit=1)` over the patient table
(first record in id order). -/
def findByContact (env : Env) (cn : String) : Option PatientRec :=
  env.patients.find? (fun p => p.contact_number == some cn)

/-- The duplicate-contact error message raised by `Patient.create`
(an f-string mentioning the existing record's name). -/
def dupContactMsg (cn : String) (existing : PatientRec) : String :=
  ("A patient with contact number " ++ cn ++ " already exists: ")
    ++ existing.name ++ "."

/-- `Patient.create` from `src/patient.py`, lines 64–95, embedded
statement by statement.  `now` is `fields.Datetime.now()`.  The result pairs
the Python outcome with the store at return/raise time (an uncaught error
rolls the transaction back, so the store is the input store). -/
def create (now : Nat) (env : Env) (arg : CreateArg) : Except PyErr PatientRec × Env :=
  match arg with
  | CreateArg.list _ =>
      -- `vals_list.get('contact_number')` on a list raises AttributeError
      -- before any other statement runs.
      (Except.error PyErr.attributeError, env)
  | CreateArg.dict vals =>
      let contact_number := vals.contact_number
      match (if truthy contact_number then
               findByContact env (contact_number.getD "")
             else none) with
      | some existing_patient =>
          (Except.error (PyErr.validationError
             (dupContactMsg (contact_number.getD "") existing_patient)), env)
      | none =>
          -- `vals_list['registration_date'] = fields.Datetime.now()` mutates
          -- only that key of the dict.
          let registration_date := if vals.registration_date = none then
             some now else vals.registration_date
          let seq₀ : IrSequence :=
            match env.seq with
            | some s => s
            | none => { number_next := 1, pfx := "PAT", padding := 4, increment := 1 }
          let env₁ : Env := { env with seq := some seq₀ }
          let seq₁ : IrSequence :=
            if env₁.patients.isEmpty then { seq₀ with number_next := 1 } else seq₀
          let env₂ : Env := { env₁ with seq := some seq₁ }
          let (pid, env₃) :=
            if vals.patient_id.getD "New" = "New" then
              let drawn := nextByCode seq₁
              ((if drawn.1 = "" then "New" else drawn.1),
               { env₂ with seq := some drawn.2 })
            else (vals.patient_id.getD "New", env₂)
          let rec_ : PatientRec :=
            { patient_id := pid, name := vals.name,
              contact_number := vals.contact_number,
              date_of_birth := vals.date_of_birth,
              registration_date := registration_date }
          (Except.ok rec_, { env₃ with patients := env₃.patients ++ [rec_] })

/-- A sequence of separate `create` calls, each with a dict argument;
stops at the first error (the claims quantify over runs in which every
creation succeeds). -/
def createAll (now : Nat) (env : Env) : List PatientVals → Except PyErr (Env × List PatientRec)
  | [] => Except.ok (env, [])
  | v :: rest =>
      match create now env (CreateArg.dict v) with
      | (Except.ok r, env') =>
          match createAll now env' rest with
          | Except.ok (env'', rs) => Except.ok (env'', r :: rs)
          | Except.error e => Except.error e
      | (Except.error e, _) => Except.error e

/-- Well-formedness of the store that `Patient.create` itself establishes:
if the `hospital.patient` sequence exists, its increment is positive and
its prefix is nonempty (the code creates it with prefix `'PAT'` and
increment `1`). -/
def EnvWf (env : Env) : Prop :=
  ∀ s : IrSequence, env.seq = some s → 1 ≤ s.increment ∧ s.pfx ≠ ""

/-- `vals` leaves `patient_id` at its default `'New'` (absent key or the
literal default). -/
def DefaultId (v : PatientVals) : Prop :=
  v.patient_id = none ∨ v.patient_id = some "New"

/-! ## Python `datetime.date` -/

/-- Gregorian leap-year test (as used by `datetime.date`). -/
def isLeapYear (y : Nat) : Bool :=
  y % 4 == 0 && (y % 100 != 0 || y % 400 == 0)

/-- Length of month `m` of year `y` in the Gregorian calendar. -/
def daysInMonth (y m : Nat) : Nat :=
  if m = 2 then (if isLeapYear y then 29 else 28)
  else if m = 4 ∨ m = 6 ∨ m = 9 ∨ m = 11 then 30
  else 31

/-- The argument checks of the `datetime.date` constructor. -/
def PyDate.validb (d : PyDate) : Bool :=
  decide (1 ≤ d.year ∧ d.year ≤ 9999 ∧ 1 ≤ d.month ∧ d.month ≤ 12 ∧
          1 ≤ d.day ∧ d.day ≤ daysInMonth d.year d.month)

/-- `date(y, m, d)`: build the date or raise `ValueError`. -/
def mkPyDate (y m d : Nat) : Except PyErr PyDate :=
  if PyDate.validb { year := y, month := m, day := d } then
    Except.ok { year := y, month := m, day := d }
  else Except.error PyErr.valueError

/-- Python date comparison `a <= b` (tuple order on (year, month, day)). -/
def PyDate.leb (a b : PyDate) : Bool :=
  decide (a.year < b.year ∨ (a.year = b.year ∧
          (a.month < b.month ∨ (a.month = b.month ∧ a.day ≤ b.day))))

/-- Python date comparison `a < b`. -/
def PyDate.ltb (a b : PyDate) : Bool :=
  decide (a.year < b.year ∨ (a.year = b.year ∧
          (a.month < b.month ∨ (a.month = b.month ∧ a.day < b.day))))

/-- Days in all years strictly before year `y` (proleptic Gregorian). -/
def daysBeforeYear (y : Nat) : Nat :=
  365 * (y - 1) + (y - 1) / 4 - (y - 1) / 100 + (y - 1) / 400

/-- Days in the months of year `y` strictly before month `m`. -/
def daysBeforeMonth (y m : Nat) : Nat :=
  ((List.range (m - 1)).map (fun k => daysInMonth y (k + 1))).sum

/-- `date.toordinal`: day number of `d` counting 0001-01-01 as 1. -/
def PyDate.toOrdinal (d : PyDate) : Nat :=
  daysBeforeYear d.year + daysBeforeMonth d.year d.month + d.day

/-- `(a - b).days` for two dates (a `timedelta` day count). -/
def dateSubDays (a b : PyDate) : Int :=
  (a.toOrdinal : Int) - (b.toOrdinal : Int)

/-- The f-string `f"{y} year(s), {m} month(s), {d} day(s) old"`. -/
def ageWords (y m d : Int) : String :=
  toString y ++ " year(s), " ++ toString m ++ " month(s), " ++
    toString d ++ " day(s) old"

/-- The final `if delta_months < 0` adjustment of `_compute_age_display`
followed by the formatting of the age string. -/
def ageAdjustMonths (dy dm dd : Int) : String :=
  if dm < 0 then ageWords (dy - 1) (dm + 12) dd else ageWords dy dm dd

/-- `Patient._compute_age_display` from `src/patient.py`, lines 97–127, for
one record: given `date.today()` and the record's `date_of_birth`, produce
the `age` string, or the exception the body raises. -/
def computeAgeDisplay (today : PyDate) (dob? : Option PyDate) : Except PyErr String :=
  match dob? with
  | none => Except.ok "Date of birth not set"
  | some dob =>
      if PyDate.leb dob today then
        let delta_years : Int := (today.year : Int) - (dob.year : Int)
        let delta_months : Int := (today.month : Int) - (dob.month : Int)
        let delta_days : Int := (today.day : Int) - (dob.day : Int)
        if delta_days < 0 then
          let prev_month : Nat := if today.month - 1 = 0 then 12 else today.month - 1
          let prev_month_year : Nat :=
            if today.month ≠ 1 then today.year else today.year - 1
          match mkPyDate prev_month_year (prev_month + 1) 1,
                mkPyDate prev_month_year prev_month 1 with
          | Except.error e, _ => Except.error e
          | Except.ok _, Except.error e => Except.error e
          | Except.ok a, Except.ok b =>
              let days_in_prev_month := dateSubDays a b
              Except.ok (ageAdjustMonths delta_years (delta_months - 1)
                           (delta_days + days_in_prev_month))
        else
          Except.ok (ageAdjustMonths delta_years delta_months delta_days)
      else
        Except.ok ("Will be born in " ++ toString (dateSubDays dob today) ++ " day(s)")

/-! ## `hmis.patient` (`src/PythonCodeHMIS.py`) -/

/-- A stored `hmis.patient` record (the fields the date constraint reads). -/
structure HmisPatient where
  name : String
  date_of_birth : PyDate
deriving DecidableEq, Repr

/-- `HMISPatient._check_date_of_birth` (lines 81–85): raise iff the stored
`date_of_birth` is strictly after today. -/
def checkDateOfBirth (today : PyDate) (p : HmisPatient) : Except PyErr Unit :=
  if PyDate.ltb today p.date_of_birth then
    Except.error (PyErr.validationError "Date of birth cannot be in the future!")
  else Except.ok ()

/-- An ORM write of `date_of_birth` on an `hmis.patient` record: the field
is set, then the `@api.constrains('date_of_birth')` checker runs; a
constraint failure aborts the transaction, leaving the record unchanged. -/
def hmisWriteDateOfBirth (today : PyDate) (p : HmisPatient) (d : PyDate) :
    Except PyErr Unit × HmisPatient :=
  let p' := { p with date_of_birth := d }
  match checkDateOfBirth today p' with
  | Except.ok _ => (Except.ok (), p')
  | Except.error e => (Except.error e, p)

/-! ## `hospital.icu.bed` (`src/icu_bed.py`) -/

/-- A stored `hospital.icu.bed` record (the fields `unlink` reads; the
quotes of the source message around Booked are omitted). -/
structure ICUBed where
  name : String
  status : String
  patient_id : Option Nat
  assigned_date : Option Nat
deriving DecidableEq, Repr

/-- The `for bed in self` guard loop of `HospitalICUBed.unlink`
(lines 41–45): the first bed with status `'booked'` raises. -/
def icuUnlinkCheck : List ICUBed → Option PyErr
  | [] => none
  | b :: rest =>
      if b.status = "booked" then
        some (PyErr.validationError "You cannot delete a bed that is marked as Booked.")
      else icuUnlinkCheck rest

/-- `HospitalICUBed.unlink` on recordset `sel` over table `db`: raise if any
selected bed is booked (table unchanged), else `super().unlink()` deletes
the selected records. -/
def icuUnlink (sel db : List ICUBed) : Except PyErr Unit × List ICUBed :=
  match icuUnlinkCheck sel with
  | some e => (Except.error e, db)
  | none => (Except.ok (), db.filter (fun b => decide (b ∉ sel)))

/-! ## Daily attendance batch (`src/OdooPythonTutorialSchool.py`) -/

/-- A `school.student` record (the fields the batch reads). -/
structure Student where
  sid : Nat
  status : String
  class_id : Nat
  section_id : Nat
deriving DecidableEq, Repr

/-- A `school.attendance` record. -/
structure AttendanceRec where
  student_id : Nat
  date : Nat
  status : String
  class_id : Nat
  section_id : Nat
deriving DecidableEq, Repr

/-- `Attendance.search([('student_id','=',sid), ('date','=',today)])`
is nonempty. -/
def hasAttendance (att : List AttendanceRec) (sid today : Nat) : Bool :=
  att.any (fun r => r.student_id == sid && r.date == today)

/-- The `for student in active_students` loop of
`auto_generate_daily_attendance` (lines 391–428), threading the counter and
the attendance table. -/
def attendanceLoop (today : Nat) :
    List Student → Nat → List AttendanceRec → Nat × List AttendanceRec
  | [], c, att => (c, att)
  | s :: rest, c, att =>
      if hasAttendance att s.sid today then attendanceLoop today rest c att
      else
        attendanceLoop today rest (c + 1)
          (att ++ [{ student_id := s.sid, date := today, status := "absent",
                     class_id := s.class_id, section_id := s.section_id }])

/-- `SMISAutomatedTasks.auto_generate_daily_attendance`: select active
students, create one `'absent'` record per student lacking one for today,
return the generated count and the new table. -/
def autoGenerateDailyAttendance (today : Nat) (students : List Student)
    (att : List AttendanceRec) : Nat × List AttendanceRec :=
  attendanceLoop today (students.filter (fun s => s.status == "active")) 0 att

/-! ## Patient follow-up batch (`src/PythonCodeHMIS.py`, lines 329–360) -/

/-- An `hmis.appointment` record joined with its patient's status
(the fields the follow-up search reads). -/
structure Appointment where
  aid : Nat
  state : String
  appointment_date : Int
  patient_status : String
deriving DecidableEq, Repr

/-- The search domain of `auto_follow_up_patients`: completed appointments
whose date lies in `[now - 8 days, now - 7 days]` for an active patient
(datetimes are seconds, one day is 86400). -/
def followUpDomain (now : Int) (a : Appointment) : Bool :=
  a.state == "done" && decide (now - 7 * 86400 - 86400 ≤ a.appointment_date)
    && decide (a.appointment_date ≤ now - 7 * 86400) && a.patient_status == "active"

/-- The `for appointment in appointments` loop: `activity_schedule` is a
framework call that may raise; `fails` says for which appointment it does.
A raise propagates out of the loop (the `try` is around the whole loop),
keeping the activities already created; otherwise the appointment's id is
appended to the created activities and the counter increments. -/
def followUpLoop (fails : Appointment → Bool) :
    List Appointment → Nat → List Nat → Option Nat × List Nat
  | [], c, acts => (some c, acts)
  | a :: rest, c, acts =>
      if fails a then (none, acts)
      else followUpLoop fails rest (c + 1) (acts ++ [a.aid])

/-- `HMISAutomatedTasks.auto_follow_up_patients`: run the loop over the
filtered appointments inside `try`; on any exception log and return `0`.
The result pairs the returned count with the ids of the appointments whose
follow-up activity was created. -/
def autoFollowUpPatients (fails : Appointment → Bool) (now : Int)
    (apts : List Appointment) : Nat × List Nat :=
  match followUpLoop fails (apts.filter (followUpDomain now)) 0 [] with
  | (some c, acts) => (c, acts)
  | (none, acts) => (0, acts)

/-- Invariant threaded through a run of successful creations: the patient
table is nonempty and the sequence exists with fixed prefix/padding,
positive increment, and counter at least `lo`. -/
def SeqReady (pfxS : String) (p lo : Nat) (env : Env) : Prop :=
  env.patients ≠ [] ∧ ∃ s : IrSequence, env.seq = some s ∧ s.pfx = pfxS ∧
    s.padding = p ∧ 1 ≤ s.increment ∧ pfxS ≠ "" ∧ lo ≤ s.number_next

/-! # Theorems -/

/-! ## Decimal-identifier infrastructure -/

theorem unDigits_replicate_zero (k : Nat) : unDigits (List.replicate k 0) = 0 := by
  induction k with
  | zero => rfl
  | succ n ih => simp [List.replicate, unDigits, ih]

theorem unDigits_append_replicate_zero (ds : List Nat) (k : Nat) :
    unDigits (ds ++ List.replicate k 0) = unDigits ds := by
  induction ds with
  | nil => simpa using unDigits_replicate_zero k
  | cons d t ih => simp [unDigits, ih]

theorem unDigits_decDigitsAux (fuel : Nat) :
    ∀ n : Nat, n ≤ fuel → unDigits (decDigitsAux fuel n) = n := by
  induction fuel with
  | zero =>
      intro n hn
      have : n = 0 := Nat.le_zero.mp hn
      subst this
      rfl
  | succ f ih =>
      intro n hn
      match n with
      | 0 => rfl
      | m + 1 =>
          have hdiv : (m + 1) / 10 ≤ f := by
            have := Nat.div_lt_self (Nat.succ_pos m) (by norm_num : 1 < 10)
            omega
          simp only [decDigitsAux, unDigits, ih ((m + 1) / 10) hdiv]
          exact Nat.mod_add_div (m + 1) 10

theorem unDigits_decDigits (n : Nat) : unDigits (decDigits n) = n :=
  unDigits_decDigitsAux n n (Nat.le_refl n)

theorem padDigits_inj (p : Nat) {n m : Nat} (h : padDigits p n = padDigits p m) :
    n = m := by
  have hr := congrArg (fun l => unDigits l.reverse) h
  simp only [padDigits, List.reverse_append, List.reverse_replicate,
    List.reverse_reverse] at hr
  rwa [unDigits_append_replicate_zero, unDigits_append_replicate_zero,
    unDigits_decDigits, unDigits_decDigits] at hr

theorem decDigitsAux_lt_ten (fuel : Nat) :
    ∀ n : Nat, ∀ d ∈ decDigitsAux fuel n, d < 10 := by
  induction fuel with
  | zero => intro n d hd; simp [decDigitsAux] at hd
  | succ f ih =>
      intro n d hd
      match n with
      | 0 => simp [decDigitsAux] at hd
      | m + 1 =>
          simp only [decDigitsAux, List.mem_cons] at hd
          rcases hd with h | h
          · subst h; exact Nat.mod_lt _ (by norm_num)
          · exact ih _ d h

theorem padDigits_lt_ten (p n : Nat) : ∀ d ∈ padDigits p n, d < 10 := by
  intro d hd
  simp only [padDigits, List.mem_append, List.mem_replicate,
    List.mem_reverse] at hd
  rcases hd with h | h
  · omega
  · exact decDigitsAux_lt_ten n n d h

theorem digitChar_inj_lt :
    ∀ a < 10, ∀ b < 10, Nat.digitChar a = Nat.digitChar b → a = b := by decide

theorem map_digitChar_inj :
    ∀ l₁ l₂ : List Nat, (∀ d ∈ l₁, d < 10) → (∀ d ∈ l₂, d < 10) →
      l₁.map Nat.digitChar = l₂.map Nat.digitChar → l₁ = l₂ := by
  intro l₁
  induction l₁ with
  | nil =>
      intro l₂ _ _ h
      cases l₂ with
      | nil => rfl
      | cons b t => simp at h
  | cons a t ih =>
      intro l₂ h₁ h₂ h
      cases l₂ with
      | nil => simp at h
      | cons b t₂ =>
          simp only [List.map_cons, List.cons.injEq] at h
          have hab : a = b :=
            digitChar_inj_lt a (h₁ a (List.mem_cons_self a t)) b
              (h₂ b (List.mem_cons_self b t₂)) h.1
          have ht : t = t₂ :=
            ih t₂ (fun d hd => h₁ d (List.mem_cons_of_mem a hd))
              (fun d hd => h₂ d (List.mem_cons_of_mem b hd)) h.2
          rw [hab, ht]

theorem fmtSeqId_inj (pfxS : String) (p : Nat) {n m : Nat}
    (h : fmtSeqId pfxS p n = fmtSeqId pfxS p m) : n = m := by
  have hdata : pfxS.data ++ (padDigits p n).map Nat.digitChar
      = pfxS.data ++ (padDigits p m).map Nat.digitChar := congrArg String.data h
  have hmap : (padDigits p n).map Nat.digitChar = (padDigits p m).map Nat.digitChar :=
    List.append_cancel_left hdata
  exact padDigits_inj p (map_digitChar_inj _ _ (padDigits_lt_ten p n)
    (padDigits_lt_ten p m) hmap)

theorem fmtSeqId_ne_empty (pfxS : String) (p n : Nat) (h : pfxS ≠ "") :
    fmtSeqId pfxS p n ≠ "" := by
  intro he
  apply h
  have hdata : pfxS.data ++ (padDigits p n).map Nat.digitChar = [] :=
    congrArg String.data he
  have hnil : pfxS.data = [] := by
    cases hp : pfxS.data with
    | nil => rfl
    | cons c t => rw [hp] at hdata; simp at hdata
  cases pfxS with
  | mk data => cases hnil; rfl

/-! ## C2: multi-create API passes a list; `create` crashes immediately -/

/-- C2: for every call to `hospital.patient.create` through the multi-create
API, where the argument is a list of dicts, the body's first statement runs
a dict operation (`vals_list.get`) on the list itself and raises
`AttributeError` before any validation, sequence assignment, or
`super().create` runs; the returned store is the input store, so no patient
record is created and no sequence state changes. -/
theorem create_list_arg_raises_attribute_error
    (now : Nat) (env : Env) (l : List PatientVals) :
    create now env (CreateArg.list l) = (Except.error PyErr.attributeError, env) :=
  rfl

/-! ## C7: ICU bed unlink guard -/

theorem icuUnlinkCheck_eq_none (sel : List ICUBed)
    (h : ∀ b ∈ sel, b.status ≠ "booked") : icuUnlinkCheck sel = none := by
  induction sel with
  | nil => rfl
  | cons b rest ih =>
      simp only [icuUnlinkCheck]
      rw [if_neg (h b (List.mem_cons_self b rest))]
      exact ih (fun x hx => h x (List.mem_cons_of_mem b hx))

theorem icuUnlinkCheck_eq_some (sel : List ICUBed)
    (h : ∃ b ∈ sel, b.status = "booked") :
    icuUnlinkCheck sel =
      some (PyErr.validationError
        "You cannot delete a bed that is marked as Booked.") := by
  induction sel with
  | nil => simp at h
  | cons b rest ih =>
      simp only [icuUnlinkCheck]
      by_cases hb : b.status = "booked"
      · rw [if_pos hb]
      · rw [if_neg hb]
        apply ih
        rcases h with ⟨x, hx, hxs⟩
        rcases List.mem_cons.mp hx with h1 | h1
        · exact absurd (h1 ▸ hxs) hb
        · exact ⟨x, h1, hxs⟩

/-- C7: for every `hospital.icu.bed` recordset on which `unlink` is called,
if any bed in the set has status `'booked'` a validation error is raised and
the table is unchanged (no bed deleted); if every bed in the set has status
`'available'`, the deletion succeeds and exactly the selected beds are
removed. -/
theorem icu_bed_unlink_guard (sel db : List ICUBed) :
    ((∃ b ∈ sel, b.status = "booked") →
        icuUnlink sel db =
          (Except.error (PyErr.validationError
             "You cannot delete a bed that is marked as Booked."), db)) ∧
    ((∀ b ∈ sel, b.status = "available") →
        icuUnlink sel db =
          (Except.ok (), db.filter (fun b => decide (b ∉ sel)))) := by
  constructor
  · intro h
    unfold icuUnlink
    rw [icuUnlinkCheck_eq_some sel h]
  · intro h
    unfold icuUnlink
    rw [icuUnlinkCheck_eq_none sel (fun b hb => by rw [h b hb]; decide)]

/-- Witness for C7 at concrete inputs: a booked bed blocks deletion of the
whole selection; an all-available selection is deleted. -/
theorem icu_bed_unlink_guard_witness :
    icuUnlink
        [{ name := "ICU Bed A1", status := "booked", patient_id := none,
           assigned_date := none }]
        [{ name := "ICU Bed A1", status := "booked", patient_id := none,
           assigned_date := none },
         { name := "ICU Bed A2", status := "available", patient_id := none,
           assigned_date := none }] =
      (Except.error (PyErr.validationError
         "You cannot delete a bed that is marked as Booked."),
       [{ name := "ICU Bed A1", status := "booked", patient_id := none,
          assigned_date := none },
        { name := "ICU Bed A2", status := "available", patient_id := none,
          assigned_date := none }]) ∧
    icuUnlink
        [{ name := "ICU Bed B1", status := "available", patient_id := none,
           assigned_date := none }]
        [{ name := "ICU Bed B1", status := "available", patient_id := none,
           assigned_date := none }] =
      (Except.ok (), []) := by
  constructor
  · exact (icu_bed_unlink_guard _ _).1 (by decide)
  · have h := (icu_bed_unlink_guard
      [{ name := "ICU Bed B1", status := "available", patient_id := none,
         assigned_date := none }]
      [{ name := "ICU Bed B1", status := "available", patient_id := none,
         assigned_date := none }]).2 (by decide)
    simpa using h

/-! ## C8: daily attendance batch is idempotent for a fixed day -/

theorem attendanceLoop_mem (today : Nat) (l : List Student) (c : Nat)
    (att : List AttendanceRec) (r : AttendanceRec) (h : r ∈ att) :
    r ∈ (attendanceLoop today l c att).2 := by
  induction l generalizing c att with
  | nil => exact h
  | cons s rest ih =>
      simp only [attendanceLoop]
      by_cases hs : hasAttendance att s.sid today
      · rw [if_pos hs]; exact ih c att h
      · rw [if_neg hs]
        exact ih (c + 1) _ (List.mem_append_left _ h)

theorem attendanceLoop_covers (today : Nat) (l : List Student) (c : Nat)
    (att : List AttendanceRec) :
    ∀ s ∈ l, hasAttendance (attendanceLoop today l c att).2 s.sid today = true := by
  induction l generalizing c att with
  | nil => intro s hs; simp at hs
  | cons s rest ih =>
      intro x hx
      rcases List.mem_cons.mp hx with h1 | h1
      · subst h1
        simp only [attendanceLoop]
        by_cases hs : hasAttendance att x.sid today
        · rw [if_pos hs]
          rcases List.any_eq_true.mp hs with ⟨r, hr, hrq⟩
          exact List.any_eq_true.mpr
            ⟨r, attendanceLoop_mem today rest c att r hr, hrq⟩
        · rw [if_neg hs]
          refine List.any_eq_true.mpr
            ⟨{ student_id := x.sid, date := today, status := "absent",
               class_id := x.class_id, section_id := x.section_id }, ?_, by simp⟩
          exact attendanceLoop_mem today rest (c + 1) _ _
            (List.mem_append_right _ (List.mem_singleton.mpr rfl))
      · simp only [attendanceLoop]
        by_cases hs : hasAttendance att s.sid today
        · rw [if_pos hs]; exact ih c att x h1
        · rw [if_neg hs]; exact ih (c + 1) _ x h1

theorem attendanceLoop_noop (today : Nat) (l : List Student) (c : Nat)
    (att : List AttendanceRec)
    (h : ∀ s ∈ l, hasAttendance att s.sid today = true) :
    attendanceLoop today l c att = (c, att) := by
  induction l with
  | nil => rfl
  | cons s rest ih =>
      simp only [attendanceLoop]
      rw [if_pos (h s (List.mem_cons_self s rest))]
      exact ih (fun x hx => h x (List.mem_cons_of_mem s hx))

/-- C8: running `auto_generate_daily_attendance` twice with the same `today`
and the same student table creates at most one record per (student, date)
pair: the second run creates no records, returns `0`, and leaves the
attendance table exactly as the first run left it. -/
theorem attendance_generation_idempotent (today : Nat)
    (students : List Student) (att : List AttendanceRec) :
    autoGenerateDailyAttendance today students
        (autoGenerateDailyAttendance today students att).2 =
      (0, (autoGenerateDailyAttendance today students att).2) := by
  unfold autoGenerateDailyAttendance
  exact attendanceLoop_noop today _ 0 _
    (fun s hs => attendanceLoop_covers today _ 0 att s hs)

/-! ## C6: the not-in-the-future date invariant -/

/-- C6 (amended): for `hmis.patient` — the dated entity that declares the
`_check_date_of_birth` constraint — every write that would set
`date_of_birth` strictly in the future relative to today is rejected with a
validation error at write time and the record is unchanged. -/
theorem hmis_future_dob_write_rejected (today : PyDate) (p : HmisPatient)
    (d : PyDate) (h : PyDate.ltb today d = true) :
    hmisWriteDateOfBirth today p d =
      (Except.error
        (PyErr.validationError "Date of birth cannot be in the future!"), p) := by
  unfold hmisWriteDateOfBirth checkDateOfBirth
  simp [h]

/-- Witness for the amended C6 at a concrete input. -/
theorem hmis_future_dob_write_rejected_witness :
    hmisWriteDateOfBirth { year := 2026, month := 1, day := 1 }
        { name := "P", date_of_birth := { year := 2000, month := 5, day := 5 } }
        { year := 2030, month := 1, day := 1 } =
      (Except.error
        (PyErr.validationError "Date of birth cannot be in the future!"),
       { name := "P", date_of_birth := { year := 2000, month := 5, day := 5 } }) :=
  hmis_future_dob_write_rejected _ _ _ (by decide)

/-- Counterexample to C6 as stated: `hospital.patient` (`src/patient.py`) is
a dated entity, yet it validates nothing at write time — creating a patient
whose `date_of_birth` is strictly in the future (relative to a today of
2026-01-01) succeeds, and `_compute_age_display` even renders the future
date as `Will be born in ... day(s)`. -/
theorem hospital_patient_future_dob_accepted :
    PyDate.ltb { year := 2026, month := 1, day := 1 }
        { year := 2030, month := 1, day := 1 } = true ∧
    (create 0 { patients := [], seq := none }
        (CreateArg.dict
          { patient_id := none, name := "X", contact_number := none,
            date_of_birth := some { year := 2030, month := 1, day := 1 },
            registration_date := none })).1 =
      Except.ok
        { patient_id := "PAT0001", name := "X", contact_number := none,
          date_of_birth := some { year := 2030, month := 1, day := 1 },
          registration_date := some 0 } ∧
    computeAgeDisplay { year := 2026, month := 1, day := 1 }
        (some { year := 2030, month := 1, day := 1 }) =
      Except.ok "Will be born in 1461 day(s)" := by
  exact ⟨by decide, rfl, rfl⟩

/-! ## C5 / C4: the January day-borrow of `_compute_age_display` -/

/-- C5: for every `today` in January and every `date_of_birth` with
`dob <= today` and `dob.day > today.day`, the day-borrow branch of
`_compute_age_display` computes `prev_month = 12` and then constructs
`date(prev_month_year, 13, 1)`, which raises `ValueError`: the age
computation is not total over its stated input domain. -/
theorem compute_age_january_borrow_raises (today dob : PyDate)
    (hvt : PyDate.validb today = true) (hvd : PyDate.validb dob = true)
    (hm : today.month = 1) (hle : PyDate.leb dob today = true)
    (hday : today.day < dob.day) :
    computeAgeDisplay today (some dob) = Except.error PyErr.valueError := by
  obtain ⟨ty, tm, td⟩ := today
  obtain ⟨by_, bm, bd⟩ := dob
  simp only [PyDate.month] at hm
  subst hm
  simp only [PyDate.day] at hday
  have hdd : ((td : Int) - (bd : Int) < 0) := by omega
  simp only [computeAgeDisplay, hle, if_true, if_pos hdd]
  norm_num [mkPyDate, PyDate.validb]

/-- C4 (code bug): at today = 2026-01-10 and date_of_birth = 2025-12-20
(a birth date before today, expected age 0 year(s), 0 month(s), 21 day(s)),
`_compute_age_display` raises `ValueError` while constructing
`date(2025, 13, 1)` instead of producing the calendar-aware decomposition. -/
theorem compute_age_display_january_failing_input :
    computeAgeDisplay { year := 2026, month := 1, day := 10 }
        (some { year := 2025, month := 12, day := 20 }) =
      Except.error PyErr.valueError := rfl

/-- Witness for C5 at a concrete input. -/
theorem compute_age_january_borrow_raises_witness :
    computeAgeDisplay { year := 2024, month := 1, day := 5 }
        (some { year := 2023, month := 11, day := 30 }) =
      Except.error PyErr.valueError :=
  compute_age_january_borrow_raises _ _ (by decide) (by decide) (by decide)
    (by decide) (by decide)

/-! ## C3: duplicate contact number rejection -/

/-- Counterexample to C3 as stated: the guard is `if contact_number:`, so an
empty-string contact number — equal to the empty-string contact number of the
already-existing patient Amy — bypasses the duplicate check entirely and the
creation succeeds, appending a second record with the same contact number. -/
theorem duplicate_empty_contact_not_rejected :
    create 1
        { patients := [{ patient_id := "PAT0001", name := "Amy",
                         contact_number := some "", date_of_birth := none,
                         registration_date := some 0 }],
          seq := some { number_next := 2, pfx := "PAT", padding := 4,
                        increment := 1 } }
        (CreateArg.dict
          { patient_id := none, name := "Bob", contact_number := some "",
            date_of_birth := none, registration_date := some 1 }) =
      (Except.ok { patient_id := "PAT0002", name := "Bob",
                   contact_number := some "", date_of_birth := none,
                   registration_date := some 1 },
       { patients := [{ patient_id := "PAT0001", name := "Amy",
                        contact_number := some "", date_of_birth := none,
                        registration_date := some 0 },
                      { patient_id := "PAT0002", name := "Bob",
                        contact_number := some "", date_of_birth := none,
                        registration_date := some 1 }],
         seq := some { number_next := 3, pfx := "PAT", padding := 4,
                       increment := 1 } }) :=
  rfl

/-- C3 (amended): for every attempt to create a `hospital.patient` with a
truthy (nonempty) `contact_number` equal to the contact number of an
already-existing patient, `create` raises a validation error whose message
contains the existing record's name, and the store is unchanged (no new
record is created); an empty-string contact number bypasses the check. -/
theorem create_duplicate_contact_rejected (now : Nat) (env : Env)
    (vals : PatientVals) (cn : String) (existing : PatientRec)
    (hcn : vals.contact_number = some cn) (hne : cn ≠ "")
    (hfound : findByContact env cn = some existing) :
    create now env (CreateArg.dict vals) =
      (Except.error (PyErr.validationError (dupContactMsg cn existing)), env) ∧
    ∃ s t : String, dupContactMsg cn existing = s ++ existing.name ++ t := by
  constructor
  · have ht : truthy (some cn) = true := by simp [truthy, hne]
    simp only [create, hcn, ht, if_true, Option.getD_some, hfound]
  · exact ⟨"A patient with contact number " ++ cn ++ " already exists: ", ".",
      rfl⟩

/-- Witness for the amended C3 at a concrete input. -/
theorem create_duplicate_contact_rejected_witness :
    create 7
        { patients := [{ patient_id := "PAT0001", name := "Amy",
                         contact_number := some "0712345678",
                         date_of_birth := none, registration_date := some 0 }],
          seq := some { number_next := 2, pfx := "PAT", padding := 4,
                        increment := 1 } }
        (CreateArg.dict
          { patient_id := none, name := "Bob",
            contact_number := some "0712345678", date_of_birth := none,
            registration_date := none }) =
      (Except.error (PyErr.validationError
         (dupContactMsg "0712345678"
           { patient_id := "PAT0001", name := "Amy",
             contact_number := some "0712345678", date_of_birth := none,
             registration_date := some 0 })),
       { patients := [{ patient_id := "PAT0001", name := "Amy",
                        contact_number := some "0712345678",
                        date_of_birth := none, registration_date := some 0 }],
         seq := some { number_next := 2, pfx := "PAT", padding := 4,
                       increment := 1 } }) ∧
    ∃ s t : String,
      dupContactMsg "0712345678"
          { patient_id := "PAT0001", name := "Amy",
            contact_number := some "0712345678", date_of_birth := none,
            registration_date := some 0 } = s ++ "Amy" ++ t :=
  create_duplicate_contact_rejected 7 _ _ "0712345678" _ rfl (by decide) rfl

/-! ## C9: error handling of the scheduled batch procedures -/

theorem followUpLoop_no_failure (fails : Appointment → Bool)
    (l : List Appointment) (c : Nat) (acts : List Nat)
    (h : ∀ a ∈ l, fails a = false) :
    followUpLoop fails l c acts =
      (some (c + l.length), acts ++ l.map (fun a => a.aid)) := by
  induction l generalizing c acts with
  | nil => simp [followUpLoop]
  | cons a rest ih =>
      simp only [followUpLoop]
      rw [if_neg (by rw [h a (List.mem_cons_self a rest)]; decide)]
      rw [ih (c + 1) _ (fun x hx => h x (List.mem_cons_of_mem a hx))]
      simp only [List.length_cons, List.map_cons, List.append_assoc,
        List.singleton_append, Prod.mk.injEq, Option.some.injEq, and_true,
        true_and, eq_self_iff_true]
      omega

theorem followUpLoop_first_failure (fails : Appointment → Bool)
    (pre : List Appointment) (a : Appointment) (post : List Appointment)
    (c : Nat) (acts : List Nat)
    (hpre : ∀ b ∈ pre, fails b = false) (ha : fails a = true) :
    followUpLoop fails (pre ++ a :: post) c acts =
      (none, acts ++ pre.map (fun b => b.aid)) := by
  induction pre generalizing c acts with
  | nil => simp [followUpLoop, ha]
  | cons b rest ih =>
      simp only [List.cons_append, followUpLoop, List.append_eq]
      rw [if_neg (by rw [hpre b (List.mem_cons_self b rest)]; decide)]
      rw [ih (c + 1) _ (fun x hx => hpre x (List.mem_cons_of_mem b hx))]
      simp

/-- C9 (amended): in `auto_follow_up_patients` the `try`/`except` wraps the
whole loop, not each entity: when no selected appointment fails, the return
value is the count of selected appointments and one follow-up activity is
created per appointment; but a failure on one appointment aborts the loop —
the appointments after the failing one are NOT processed — and the procedure
returns `0` regardless of how many entities were actually affected (only the
activities created before the failure remain). -/
theorem auto_follow_up_whole_batch_error_semantics
    (fails : Appointment → Bool) (now : Int) (apts : List Appointment) :
    ((∀ a ∈ apts.filter (followUpDomain now), fails a = false) →
        autoFollowUpPatients fails now apts =
          ((apts.filter (followUpDomain now)).length,
           (apts.filter (followUpDomain now)).map (fun a => a.aid))) ∧
    (∀ (pre : List Appointment) (a : Appointment) (post : List Appointment),
        apts.filter (followUpDomain now) = pre ++ a :: post →
        (∀ b ∈ pre, fails b = false) → fails a = true →
        autoFollowUpPatients fails now apts = (0, pre.map (fun b => b.aid))) := by
  constructor
  · intro h
    unfold autoFollowUpPatients
    rw [followUpLoop_no_failure fails _ 0 [] h]
    simp
  · intro pre a post hsplit hpre ha
    unfold autoFollowUpPatients
    rw [hsplit, followUpLoop_first_failure fails pre a post 0 [] hpre ha]
    simp

/-- Counterexample to C9 as stated: three selected appointments, the second
one failing.  The claim predicts that appointment 3 is still processed and
that the return value is the count of entities actually affected (1, namely
appointment 1); the code returns `0`, creates an activity only for
appointment 1, and never processes appointment 3. -/
theorem follow_up_failure_aborts_batch :
    autoFollowUpPatients (fun a => a.aid == 2) (8 * 86400)
        [{ aid := 1, state := "done", appointment_date := 0,
           patient_status := "active" },
         { aid := 2, state := "done", appointment_date := 0,
           patient_status := "active" },
         { aid := 3, state := "done", appointment_date := 0,
           patient_status := "active" }] = (0, [1]) ∧
    (3 : Nat) ∉
      (autoFollowUpPatients (fun a => a.aid == 2) (8 * 86400)
        [{ aid := 1, state := "done", appointment_date := 0,
           patient_status := "active" },
         { aid := 2, state := "done", appointment_date := 0,
           patient_status := "active" },
         { aid := 3, state := "done", appointment_date := 0,
           patient_status := "active" }]).2 ∧
    (autoFollowUpPatients (fun a => a.aid == 2) (8 * 86400)
        [{ aid := 1, state := "done", appointment_date := 0,
           patient_status := "active" },
         { aid := 2, state := "done", appointment_date := 0,
           patient_status := "active" },
         { aid := 3, state := "done", appointment_date := 0,
           patient_status := "active" }]).1 ≠
      ((autoFollowUpPatients (fun a => a.aid == 2) (8 * 86400)
        [{ aid := 1, state := "done", appointment_date := 0,
           patient_status := "active" },
         { aid := 2, state := "done", appointment_date := 0,
           patient_status := "active" },
         { aid := 3, state := "done", appointment_date := 0,
           patient_status := "active" }]).2).length := by
  refine ⟨rfl, by decide, by decide⟩

/-- Witness for the amended C9: a failure-free batch of two selected
appointments returns 2; the same batch with the first appointment failing
returns 0 with no activity created. -/
theorem auto_follow_up_whole_batch_error_semantics_witness :
    autoFollowUpPatients (fun _ => false) (8 * 86400)
        [{ aid := 1, state := "done", appointment_date := 0,
           patient_status := "active" },
         { aid := 2, state := "done", appointment_date := 86400,
           patient_status := "active" }] = (2, [1, 2]) ∧
    autoFollowUpPatients (fun a => a.aid == 1) (8 * 86400)
        [{ aid := 1, state := "done", appointment_date := 0,
           patient_status := "active" },
         { aid := 2, state := "done", appointment_date := 86400,
           patient_status := "active" }] = (0, []) := by
  constructor
  · have h := (auto_follow_up_whole_batch_error_semantics
      (fun _ => false) (8 * 86400)
      [{ aid := 1, state := "done", appointment_date := 0,
         patient_status := "active" },
       { aid := 2, state := "done", appointment_date := 86400,
         patient_status := "active" }]).1 (by decide)
    simpa using h
  · have h := (auto_follow_up_whole_batch_error_semantics
      (fun a => a.aid == 1) (8 * 86400)
      [{ aid := 1, state := "done", appointment_date := 0,
         patient_status := "active" },
       { aid := 2, state := "done", appointment_date := 86400,
         patient_status := "active" }]).2 []
      { aid := 1, state := "done", appointment_date := 0,
        patient_status := "active" }
      [{ aid := 2, state := "done", appointment_date := 86400,
         patient_status := "active" }] (by decide) (by decide) (by decide)
    simpa using h

/-! ## Evaluation lemmas for `Patient.create` (dict path, success case) -/

theorem DefaultId.getD_eq {v : PatientVals} (h : DefaultId v) :
    v.patient_id.getD "New" = "New" := by
  rcases h with h | h <;> rw [h] <;> rfl

theorem isEmpty_false_of_ne_nil {α : Type} (l : List α) (h : l ≠ []) :
    l.isEmpty = false := by
  cases l with
  | nil => exact absurd rfl h
  | cons a t => rfl

theorem create_dict_ok_spec (now : Nat) (env : Env) (v : PatientVals)
    (s : IrSequence) (hseq : env.seq = some s) (hpfx : s.pfx ≠ "")
    (hdef : DefaultId v) (r : PatientRec) (env' : Env)
    (h : create now env (CreateArg.dict v) = (Except.ok r, env')) :
    r.patient_id = fmtSeqId s.pfx s.padding
        (if env.patients.isEmpty then 1 else s.number_next) ∧
    env'.seq = some { s with number_next :=
        (if env.patients.isEmpty then 1 else s.number_next) + s.increment } ∧
    env'.patients = env.patients ++ [r] := by
  simp only [create] at h
  cases hg : (if truthy v.contact_number then
      findByContact env (v.contact_number.getD "") else none) with
  | some p => rw [hg] at h; simp at h
  | none =>
      rw [hg, hseq] at h
      by_cases hemp : env.patients.isEmpty
      · simp only [hemp, if_true, DefaultId.getD_eq hdef, if_pos rfl,
          nextByCode] at h
        rw [if_neg (fmtSeqId_ne_empty _ _ _ hpfx)] at h
        simp only [Prod.mk.injEq, Except.ok.injEq] at h
        obtain ⟨hr, he⟩ := h
        subst hr
        subst he
        simp [hemp]
      · simp only [hemp, if_false, DefaultId.getD_eq hdef, if_pos rfl,
          nextByCode, Bool.false_eq_true] at h
        rw [if_neg (fmtSeqId_ne_empty _ _ _ hpfx)] at h
        simp only [Prod.mk.injEq, Except.ok.injEq] at h
        obtain ⟨hr, he⟩ := h
        subst hr
        subst he
        simp [hemp]

theorem create_dict_ok_noseq (now : Nat) (env : Env) (v : PatientVals)
    (hseq : env.seq = none) (hdef : DefaultId v) (r : PatientRec) (env' : Env)
    (h : create now env (CreateArg.dict v) = (Except.ok r, env')) :
    r.patient_id = fmtSeqId "PAT" 4 1 ∧
    env'.seq = some { number_next := 2, pfx := "PAT", padding := 4,
                      increment := 1 } ∧
    env'.patients = env.patients ++ [r] := by
  simp only [create] at h
  cases hg : (if truthy v.contact_number then
      findByContact env (v.contact_number.getD "") else none) with
  | some p => rw [hg] at h; simp at h
  | none =>
      rw [hg, hseq] at h
      by_cases hemp : env.patients.isEmpty
      · simp only [hemp, if_true, DefaultId.getD_eq hdef, if_pos rfl,
          nextByCode] at h
        rw [if_neg (fmtSeqId_ne_empty "PAT" 4 1 (by decide))] at h
        simp only [Prod.mk.injEq, Except.ok.injEq] at h
        obtain ⟨hr, he⟩ := h
        subst hr
        subst he
        simp
      · simp only [hemp, if_false, DefaultId.getD_eq hdef, if_pos rfl,
          nextByCode, Bool.false_eq_true] at h
        rw [if_neg (fmtSeqId_ne_empty "PAT" 4 1 (by decide))] at h
        simp only [Prod.mk.injEq, Except.ok.injEq] at h
        obtain ⟨hr, he⟩ := h
        subst hr
        subst he
        simp

theorem createAll_nums (now : Nat) (pfxS : String) (p : Nat)
    (vs : List PatientVals) :
    ∀ (env : Env) (lo : Nat), SeqReady pfxS p lo env →
      (∀ v ∈ vs, DefaultId v) →
      ∀ (env' : Env) (recs : List PatientRec),
        createAll now env vs = Except.ok (env', recs) →
        ∃ nums : List Nat,
          recs.map (fun r => r.patient_id) = nums.map (fmtSeqId pfxS p) ∧
          List.Pairwise (fun a b => a < b) nums ∧ ∀ x ∈ nums, lo ≤ x := by
  induction vs with
  | nil =>
      intro env lo _ _ env' recs h
      simp only [createAll, Except.ok.injEq, Prod.mk.injEq] at h
      refine ⟨[], ?_, List.Pairwise.nil, by simp⟩
      rw [← h.2]
      rfl
  | cons v rest ih =>
      intro env lo hready hdef env' recs h
      obtain ⟨hpat, s, hseq, hpfxe, hpad, hinc, hne, hlo⟩ := hready
      simp only [createAll] at h
      cases hc : create now env (CreateArg.dict v) with
      | mk res envn =>
          rw [hc] at h
          cases res with
          | error e => simp at h
          | ok r =>
              simp only [] at h
              cases hca : createAll now envn rest with
              | error e => rw [hca] at h; simp at h
              | ok pr =>
                  obtain ⟨env'', rs⟩ := pr
                  rw [hca] at h
                  simp only [Except.ok.injEq, Prod.mk.injEq] at h
                  obtain ⟨heq1, heq2⟩ := h
                  have hpfxne : s.pfx ≠ "" := by rw [hpfxe]; exact hne
                  have hspec := create_dict_ok_spec now env v s hseq hpfxne
                    (hdef v (List.mem_cons_self v rest)) r envn hc
                  have hie : env.patients.isEmpty = false :=
                    isEmpty_false_of_ne_nil env.patients hpat
                  rw [hie] at hspec
                  simp only [Bool.false_eq_true, if_false] at hspec
                  obtain ⟨hid, hsq, hps⟩ := hspec
                  have hready' : SeqReady pfxS p (s.number_next + 1) envn := by
                    refine ⟨?_, { s with number_next := s.number_next + s.increment },
                      hsq, hpfxe, hpad, hinc, hne, ?_⟩
                    · rw [hps]; simp
                    · simp only
                      omega
                  obtain ⟨nums, hmap, hpw, hbd⟩ := ih envn (s.number_next + 1)
                    hready' (fun x hx => hdef x (List.mem_cons_of_mem v hx))
                    env'' rs hca
                  refine ⟨s.number_next :: nums, ?_, ?_, ?_⟩
                  · rw [← heq2]
                    simp only [List.map_cons, List.cons.injEq]
                    exact ⟨by rw [hid, hpfxe, hpad], hmap⟩
                  · exact List.Pairwise.cons
                      (fun x hx => by have := hbd x hx; omega) hpw
                  · intro x hx
                    rcases List.mem_cons.mp hx with h1 | h1
                    · omega
                    · have := hbd x h1; omega

theorem create_first_step (now : Nat) (env : Env) (v : PatientVals)
    (hwf : EnvWf env) (hdef : DefaultId v) (r : PatientRec) (env' : Env)
    (h : create now env (CreateArg.dict v) = (Except.ok r, env')) :
    ∃ (pfxS : String) (p n : Nat),
      r.patient_id = fmtSeqId pfxS p n ∧ SeqReady pfxS p (n + 1) env' := by
  cases hseq : env.seq with
  | none =>
      have hspec := create_dict_ok_noseq now env v hseq hdef r env' h
      refine ⟨"PAT", 4, 1, hspec.1,
        ⟨?_, { number_next := 2, pfx := "PAT", padding := 4, increment := 1 },
         hspec.2.1, rfl, rfl, by norm_num, by decide, by norm_num⟩⟩
      rw [hspec.2.2]
      simp
  | some s =>
      have hpfxne : s.pfx ≠ "" := (hwf s hseq).2
      have hinc : 1 ≤ s.increment := (hwf s hseq).1
      have hspec := create_dict_ok_spec now env v s hseq hpfxne hdef r env' h
      by_cases hemp : env.patients.isEmpty = true
      · rw [hemp] at hspec
        simp only [if_true] at hspec
        refine ⟨s.pfx, s.padding, 1, hspec.1,
          ⟨?_, { s with number_next := 1 + s.increment },
           hspec.2.1, rfl, rfl, hinc, hpfxne, ?_⟩⟩
        · rw [hspec.2.2]; simp
        · simp only
          omega
      · rw [Bool.not_eq_true] at hemp
        rw [hemp] at hspec
        simp only [Bool.false_eq_true, if_false] at hspec
        refine ⟨s.pfx, s.padding, s.number_next, hspec.1,
          ⟨?_, { s with number_next := s.number_next + s.increment },
           hspec.2.1, rfl, rfl, hinc, hpfxne, ?_⟩⟩
        · rw [hspec.2.2]; simp
        · simp only
          omega

theorem pairwise_map_fmt_ne (pfxS : String) (p : Nat) (nums : List Nat)
    (h : List.Pairwise (fun a b => a < b) nums) :
    List.Pairwise (fun a b : String => a ≠ b) (nums.map (fmtSeqId pfxS p)) := by
  refine List.Pairwise.map (fmtSeqId pfxS p) ?_ h
  intro a b hab heq
  exact Nat.ne_of_lt hab (fmtSeqId_inj pfxS p heq)

/-- C1: for every sequence of successful creations of `hospital.patient`
records with `patient_id` left at its default `'New'` (no deletions in
between, starting from any well-formed store), the assigned identifiers are
pairwise distinct, and they are images of a strictly increasing sequence of
counter values under the sequence's fixed prefix/padding formatting — i.e.
strictly increasing in creation order. -/
theorem hospital_patient_ids_unique_increasing (now : Nat) (env : Env)
    (vs : List PatientVals) (hwf : EnvWf env)
    (hdef : ∀ v ∈ vs, DefaultId v) (env' : Env) (recs : List PatientRec)
    (h : createAll now env vs = Except.ok (env', recs)) :
    List.Pairwise (fun a b : String => a ≠ b)
      (recs.map (fun r => r.patient_id)) ∧
    ∃ (pfxS : String) (p : Nat) (nums : List Nat),
      recs.map (fun r => r.patient_id) = nums.map (fmtSeqId pfxS p) ∧
      List.Pairwise (fun a b => a < b) nums := by
  cases vs with
  | nil =>
      simp only [createAll, Except.ok.injEq, Prod.mk.injEq] at h
      rw [← h.2]
      exact ⟨List.Pairwise.nil, "PAT", 4, [], rfl, List.Pairwise.nil⟩
  | cons v rest =>
      simp only [createAll] at h
      cases hc : create now env (CreateArg.dict v) with
      | mk res envn =>
          rw [hc] at h
          cases res with
          | error e => simp at h
          | ok r =>
              simp only [] at h
              cases hca : createAll now envn rest with
              | error e => rw [hca] at h; simp at h
              | ok pr =>
                  obtain ⟨env'', rs⟩ := pr
                  rw [hca] at h
                  simp only [Except.ok.injEq, Prod.mk.injEq] at h
                  obtain ⟨heq1, heq2⟩ := h
                  obtain ⟨pfxS, p, n, hid, hready⟩ := create_first_step now env v
                    hwf (hdef v (List.mem_cons_self v rest)) r envn hc
                  obtain ⟨nums, hmap, hpw, hbd⟩ := createAll_nums now pfxS p rest
                    envn (n + 1) hready
                    (fun x hx => hdef x (List.mem_cons_of_mem v hx)) env'' rs hca
                  have hall : recs.map (fun r => r.patient_id)
                      = (n :: nums).map (fmtSeqId pfxS p) := by
                    rw [← heq2]
                    simp only [List.map_cons, List.cons.injEq]
                    exact ⟨hid, hmap⟩
                  have hpw' : List.Pairwise (fun a b => a < b) (n :: nums) :=
                    List.Pairwise.cons (fun x hx => by have := hbd x hx; omega) hpw
                  refine ⟨?_, pfxS, p, n :: nums, hall, hpw'⟩
                  rw [hall]
                  exact pairwise_map_fmt_ne pfxS p (n :: nums) hpw'

/-- Witness for C1: two successful creations from an empty store assign
`PAT0001` then `PAT0002`. -/
theorem hospital_patient_ids_unique_increasing_witness :
    List.Pairwise (fun a b : String => a ≠ b)
      (([{ patient_id := "PAT0001", name := "X", contact_number := none,
           date_of_birth := none, registration_date := some 0 },
         { patient_id := "PAT0002", name := "Y", contact_number := none,
           date_of_birth := none, registration_date := some 0 }] :
        List PatientRec).map (fun r => r.patient_id)) ∧
    ∃ (pfxS : String) (p : Nat) (nums : List Nat),
      (([{ patient_id := "PAT0001", name := "X", contact_number := none,
           date_of_birth := none, registration_date := some 0 },
         { patient_id := "PAT0002", name := "Y", contact_number := none,
           date_of_birth := none, registration_date := some 0 }] :
        List PatientRec).map (fun r => r.patient_id)) =
        nums.map (fmtSeqId pfxS p) ∧
      List.Pairwise (fun a b => a < b) nums :=
  hospital_patient_ids_unique_increasing 0 { patients := [], seq := none }
    [{ patient_id := none, name := "X", contact_number := none,
       date_of_birth := none, registration_date := some 0 },
     { patient_id := none, name := "Y", contact_number := none,
       date_of_birth := none, registration_date := some 0 }]
    (fun s hs => Option.noConfusion hs)
    (by
      intro v hv
      rcases List.mem_cons.mp hv with h | h
      · subst h; exact Or.inl rfl
      · rw [List.mem_singleton] at h; subst h; exact Or.inl rfl)
    { patients := [{ patient_id := "PAT0001", name := "X",
                     contact_number := none, date_of_birth := none,
                     registration_date := some 0 },
                   { patient_id := "PAT0002", name := "Y",
                     contact_number := none, date_of_birth := none,
                     registration_date := some 0 }],
      seq := some { number_next := 3, pfx := "PAT", padding := 4,
                    increment := 1 } }
    [{ patient_id := "PAT0001", name := "X", contact_number := none,
       date_of_birth := none, registration_date := some 0 },
     { patient_id := "PAT0002", name := "Y", contact_number := none,
       date_of_birth := none, registration_date := some 0 }]
    rfl

/-! ## C10: the reset-to-1 heuristic -/

/-- C10: during `hospital.patient` create, if no patient records exist the
patient sequence counter is reset to 1 before the identifier is drawn: the
identifier is rendered from counter value 1 and the counter then advances
from 1.  If at least one patient record exists, the reset step leaves the
counter unchanged: the identifier is rendered from the stored `number_next`
and the counter advances from it. -/
theorem create_counter_reset_heuristic (now : Nat) (env : Env)
    (v : PatientVals) (s : IrSequence) (hseq : env.seq = some s)
    (hpfx : s.pfx ≠ "") (hdef : DefaultId v) (r : PatientRec) (env' : Env)
    (h : create now env (CreateArg.dict v) = (Except.ok r, env')) :
    (env.patients = [] →
        r.patient_id = fmtSeqId s.pfx s.padding 1 ∧
        env'.seq = some { s with number_next := 1 + s.increment }) ∧
    (env.patients ≠ [] →
        r.patient_id = fmtSeqId s.pfx s.padding s.number_next ∧
        env'.seq = some { s with number_next := s.number_next + s.increment }) := by
  have hspec := create_dict_ok_spec now env v s hseq hpfx hdef r env' h
  constructor
  · intro he
    rw [he] at hspec
    simp only [List.isEmpty_nil, if_true] at hspec
    exact ⟨hspec.1, hspec.2.1⟩
  · intro he
    rw [isEmpty_false_of_ne_nil env.patients he] at hspec
    simp only [Bool.false_eq_true, if_false] at hspec
    exact ⟨hspec.1, hspec.2.1⟩

/-- Witness for C10: with the counter stored at 5, a creation into an empty
table draws `PAT0001` (counter reset to 1, then advanced to 2); a creation
into a nonempty table draws `PAT0005` (counter untouched by the reset,
advanced to 6). -/
theorem create_counter_reset_heuristic_witness :
    (({ patient_id := "PAT0001", name := "A", contact_number := none,
        date_of_birth := none, registration_date := some 0 } :
       PatientRec).patient_id = fmtSeqId "PAT" 4 1 ∧
     ({ patients := [{ patient_id := "PAT0001", name := "A",
                       contact_number := none, date_of_birth := none,
                       registration_date := some 0 }],
        seq := some { number_next := 2, pfx := "PAT", padding := 4,
                      increment := 1 } } : Env).seq =
       some { number_next := 2, pfx := "PAT", padding := 4,
              increment := 1 }) ∧
    (({ patient_id := "PAT0005", name := "B", contact_number := none,
        date_of_birth := none, registration_date := some 0 } :
       PatientRec).patient_id = fmtSeqId "PAT" 4 5 ∧
     ({ patients := [{ patient_id := "PAT0001", name := "A",
                       contact_number := none, date_of_birth := none,
                       registration_date := some 0 },
                     { patient_id := "PAT0005", name := "B",
                       contact_number := none, date_of_birth := none,
                       registration_date := some 0 }],
        seq := some { number_next := 6, pfx := "PAT", padding := 4,
                      increment := 1 } } : Env).seq =
       some { number_next := 6, pfx := "PAT", padding := 4,
              increment := 1 }) := by
  constructor
  · exact (create_counter_reset_heuristic 0
      { patients := [],
        seq := some { number_next := 5, pfx := "PAT", padding := 4,
                      increment := 1 } }
      { patient_id := none, name := "A", contact_number := none,
        date_of_birth := none, registration_date := some 0 }
      { number_next := 5, pfx := "PAT", padding := 4, increment := 1 }
      rfl (by decide) (Or.inl rfl) _ _ rfl).1 rfl
  · exact (create_counter_reset_heuristic 0
      { patients := [{ patient_id := "PAT0001", name := "A",
                       contact_number := none, date_of_birth := none,
                       registration_date := some 0 }],
        seq := some { number_next := 5, pfx := "PAT", padding := 4,
                      increment := 1 } }
      { patient_id := none, name := "B", contact_number := none,
        date_of_birth := none, registration_date := some 0 }
      { number_next := 5, pfx := "PAT", padding := 4, increment := 1 }
      rfl (by decide) (Or.inl rfl) _ _ rfl).2 (by decide)
